import Mathlib

/-!
Shallow embedding of the NIMPHS addon's mesh/field extraction and streaming-update
pipeline (OpenFOAM and TELEMAC modules), translated from the repository sources:

* `tbb/operators/openfoam/utils.py` — mesh generation, streaming-sequence frame
  handler, mesh-sequence helpers, file loading;
* `tbb/properties/telemac/temporary_data.py` — TELEMAC temporary data reader;
* `tbb/properties/telemac/utils.py` — variable-name cleanup.

External libraries (pyvista, Blender's `bpy`) are modelled by abstract environments;
operations performed by pyvista on a mesh are recorded as symbolic constructors so
that theorems can speak about which operations the glue code applied and with which
arguments.  Python floats are idealised as rationals (and as reals where a square
root is taken); machine behaviour of floating point is out of scope.
-/

/-! ### Faces-array reshaping (`generate_mesh_data`, tbb/operators/openfoam/utils.py:124-136) -/

/-- Padding-walk branch of the faces reshaping in `generate_mesh_data`
(`tbb/operators/openfoam/utils.py:128-136`).  The python loop keeps an absolute
cursor `padding_id` into the flat array; here the remaining suffix of the array
is passed instead, which is equivalent: the slice
`faces_indices[padding_id + 1 : padding_id + 1 + padding]` is `take padding` of
the suffix past the padding entry, and the cursor advance `padding_id + (padding + 1)`
is `drop padding` of that suffix.  The loop runs `n_faces` times and breaks when
the cursor reaches the end of the array. -/
def reshape_faces_padding (n_faces : Nat) (faces_indices : List Nat) : List (List Nat) :=
  match n_faces, faces_indices with
  | 0, _ => []
  | _ + 1, [] => []
  | n + 1, padding :: rest => rest.take padding :: reshape_faces_padding n (rest.drop padding)

/-- Vectorized branch of the faces reshaping in `generate_mesh_data`
(`tbb/operators/openfoam/utils.py:126`): `np.array(mesh.faces).reshape(-1, 4)[:, 1:4]`.
Rows of four are formed, the leading count column is dropped.  (numpy raises when
the array size is not a multiple of 4; the inputs considered by the claims are
all-triangle arrays whose size is exactly 4 per face.) -/
def reshape_faces_triangles : List Nat → List (List Nat)
  | _ :: a :: b :: c :: rest => [a, b, c] :: reshape_faces_triangles rest
  | _ => []

/-- Flat vtk-style encoding of a face list: each face contributes its length
followed by its vertex indices. -/
def flatten_faces (faces : List (List Nat)) : List Nat :=
  faces.flatMap (fun f => f.length :: f)

theorem flatten_faces_cons (f : List Nat) (rest : List (List Nat)) :
    flatten_faces (f :: rest) = f.length :: (f ++ flatten_faces rest) := by
  simp [flatten_faces]

theorem reshape_faces_padding_flatten (faces : List (List Nat)) :
    reshape_faces_padding faces.length (flatten_faces faces) = faces := by
  induction faces with
  | nil => rfl
  | cons f rest ih =>
      rw [flatten_faces_cons]
      simp only [List.length_cons, reshape_faces_padding]
      rw [List.take_left, List.drop_left, ih]

/-- C7: for every flat faces array laid out as consecutive
`[count, index_1, ..., index_count]` blocks whose number of blocks equals the
mesh's reported `n_faces`, the padding-walk branch of the faces reshaping returns
a list of faces such that re-concatenating, for each face in order, its length
followed by its indices reproduces the original flat array exactly. -/
theorem C7_padding_walk_roundtrip (flat : List Nat) (n : Nat) (faces : List (List Nat))
    (hflat : flat = flatten_faces faces) (hn : n = faces.length) :
    reshape_faces_padding n flat = faces ∧
      flatten_faces (reshape_faces_padding n flat) = flat := by
  subst hflat hn
  refine ⟨reshape_faces_padding_flatten faces, ?_⟩
  rw [reshape_faces_padding_flatten faces]

theorem C7_padding_walk_roundtrip_witness :
    ([3, 10, 11, 12, 2, 5, 6] = flatten_faces [[10, 11, 12], [5, 6]]) ∧
      (2 = ([[10, 11, 12], [5, 6]] : List (List Nat)).length) ∧
      reshape_faces_padding 2 [3, 10, 11, 12, 2, 5, 6] = [[10, 11, 12], [5, 6]] ∧
      flatten_faces (reshape_faces_padding 2 [3, 10, 11, 12, 2, 5, 6])
        = [3, 10, 11, 12, 2, 5, 6] := by
  refine ⟨by decide, by decide, ?_⟩
  exact C7_padding_walk_roundtrip [3, 10, 11, 12, 2, 5, 6] 2 [[10, 11, 12], [5, 6]]
    (by decide) (by decide)

theorem reshape_faces_triangles_flatten (faces : List (List Nat))
    (h3 : ∀ f ∈ faces, f.length = 3) :
    reshape_faces_triangles (flatten_faces faces) = faces := by
  induction faces with
  | nil => rfl
  | cons f rest ih =>
      have hf : f.length = 3 := h3 f (List.mem_cons_self f rest)
      obtain ⟨a, b, c, rfl⟩ := List.length_eq_three.mp hf
      rw [flatten_faces_cons]
      have happ : ([a, b, c] : List Nat) ++ flatten_faces rest
          = a :: b :: c :: flatten_faces rest := rfl
      rw [happ]
      show [a, b, c] :: reshape_faces_triangles (flatten_faces rest) = [a, b, c] :: rest
      rw [ih (fun g hg => h3 g (List.mem_cons_of_mem _ hg))]

/-- C8: for every flat faces array laid out as consecutive
`[count, index_1, ..., index_count]` blocks in which every count equals 3, the
vectorized reshaping branch (rows of 4, leading count column dropped) produces
the same sequence of faces as the general padding-walk branch on the same input. -/
theorem C8_triangle_branch_agrees (flat : List Nat) (faces : List (List Nat))
    (hflat : flat = flatten_faces faces) (h3 : ∀ f ∈ faces, f.length = 3) :
    reshape_faces_triangles flat = reshape_faces_padding faces.length flat := by
  subst hflat
  rw [reshape_faces_triangles_flatten faces h3, reshape_faces_padding_flatten faces]

theorem C8_triangle_branch_agrees_witness :
    ([3, 10, 11, 12, 3, 5, 6, 7] = flatten_faces [[10, 11, 12], [5, 6, 7]]) ∧
      (∀ f ∈ ([[10, 11, 12], [5, 6, 7]] : List (List Nat)), f.length = 3) ∧
      reshape_faces_triangles [3, 10, 11, 12, 3, 5, 6, 7]
        = reshape_faces_padding 2 [3, 10, 11, 12, 3, 5, 6, 7] := by
  refine ⟨by decide, by decide, ?_⟩
  exact C8_triangle_branch_agrees [3, 10, 11, 12, 3, 5, 6, 7] [[10, 11, 12], [5, 6, 7]]
    (by decide) (by decide)

/-! ### Mesh sequences (`add_mesh_to_sequence`, tbb/operators/openfoam/utils.py:227-254) -/

/-- One element of the Stop-motion-OBJ `meshNameArray` collection: the mesh key
(full name) and whether the mesh is held in memory. -/
structure MeshNameElement where
  key : String
  inMemory : Bool
deriving DecidableEq

/-- The Stop-motion-OBJ `mesh_sequence_settings` property group, with the fields
this repository reads or writes (`curMeshIdx` is written by
`run_one_step_create_mesh_sequence_openfoam` after `add_mesh_to_sequence` returns). -/
structure MeshSequenceSettings where
  numMeshes : Int
  numMeshesInMemory : Int
  meshNameArray : List MeshNameElement
  initialized : Bool
  loaded : Bool
  curMeshIdx : Int
deriving DecidableEq

/-- A Blender mesh as seen by `add_mesh_to_sequence`: its full name and the
`inMeshSequence` flag the function sets. -/
structure SeqBlenderMesh where
  name_full : String
  inMeshSequence : Bool
deriving DecidableEq

/-- A Blender object holding Stop-motion-OBJ mesh-sequence settings. -/
structure MsObject where
  mesh_sequence_settings : MeshSequenceSettings
deriving DecidableEq

/-- Embedding of `add_mesh_to_sequence` (`tbb/operators/openfoam/utils.py:227-254`): marks the
mesh as part of a sequence, appends a `meshNameArray` element keyed by the mesh's
full name with `inMemory = True`, increments `numMeshes` and `numMeshesInMemory`,
sets `initialized` and `loaded`, and returns `mss.numMeshes - 1` (evaluated after
the increment).  Returns the updated object, the updated mesh and the index. -/
def add_mesh_to_sequence (obj : MsObject) (blender_mesh : SeqBlenderMesh) :
    MsObject × SeqBlenderMesh × Int :=
  let blender_mesh := { blender_mesh with inMeshSequence := true }
  let mss := obj.mesh_sequence_settings
  let mss := { mss with
    meshNameArray := mss.meshNameArray
      ++ [({ key := blender_mesh.name_full, inMemory := true } : MeshNameElement)] }
  let mss := { mss with numMeshes := mss.numMeshes + 1 }
  let mss := { mss with numMeshesInMemory := mss.numMeshesInMemory + 1 }
  let mss := { mss with initialized := true }
  let mss := { mss with loaded := true }
  ({ obj with mesh_sequence_settings := mss }, blender_mesh, mss.numMeshes - 1)

/-- C9: `add_mesh_to_sequence` increments `numMeshes` and `numMeshesInMemory` by
exactly one, appends exactly one `meshNameArray` element (keyed by the added
mesh's full name, with `inMemory` true), sets `initialized` and `loaded` to true,
returns the pre-call value of `numMeshes`, and leaves the other settings fields
(here `curMeshIdx`) unchanged. -/
theorem C9_add_mesh_to_sequence_effect (obj : MsObject) (bm : SeqBlenderMesh) :
    (add_mesh_to_sequence obj bm).1.mesh_sequence_settings.numMeshes
        = obj.mesh_sequence_settings.numMeshes + 1 ∧
      (add_mesh_to_sequence obj bm).1.mesh_sequence_settings.numMeshesInMemory
        = obj.mesh_sequence_settings.numMeshesInMemory + 1 ∧
      (add_mesh_to_sequence obj bm).1.mesh_sequence_settings.meshNameArray
        = obj.mesh_sequence_settings.meshNameArray
            ++ [({ key := bm.name_full, inMemory := true } : MeshNameElement)] ∧
      (add_mesh_to_sequence obj bm).1.mesh_sequence_settings.initialized = true ∧
      (add_mesh_to_sequence obj bm).1.mesh_sequence_settings.loaded = true ∧
      (add_mesh_to_sequence obj bm).2.2 = obj.mesh_sequence_settings.numMeshes ∧
      (add_mesh_to_sequence obj bm).1.mesh_sequence_settings.curMeshIdx
        = obj.mesh_sequence_settings.curMeshIdx ∧
      (add_mesh_to_sequence obj bm).2.1.name_full = bm.name_full ∧
      (add_mesh_to_sequence obj bm).2.1.inMeshSequence = true := by
  simp [add_mesh_to_sequence]

/-! ### TELEMAC variable names (`remove_spaces_telemac_var_name`, tbb/properties/telemac/utils.py:5-20) -/

/-- The space character (python `" "`). -/
def spaceChar : Char := Char.ofNat 32

/-- Index of the last non-space character of the list, if any.  This is the value
of `i` at which the python loop `for i in range(len(string) - 1, -1, -1)` in
`remove_spaces_telemac_var_name` first hits a non-space character: the loop scans
indices downwards, so the suffix of the string is searched before the head. -/
def find_last_non_space : List Char → Option Nat
  | [] => none
  | c :: cs =>
    match find_last_non_space cs with
    | some j => some (j + 1)
    | none => if c = spaceChar then none else some 0

/-- Embedding of `remove_spaces_telemac_var_name` (`tbb/properties/telemac/utils.py:5-20`):
returns `string[:i + 1]` for the largest index `i` holding a non-space character,
and the literal `"NONE"` when the loop falls through (empty or all-space input). -/
def remove_spaces_telemac_var_name (s : String) : String :=
  match find_last_non_space s.data with
  | some i => String.mk (s.data.take (i + 1))
  | none => "NONE"

/-- The behaviour the claim describes: the prefix of the string ending at its last
non-space character, i.e. the string with trailing spaces removed. -/
def drop_trailing_spaces (s : String) : String :=
  String.mk ((s.data.reverse.dropWhile (fun c => c == spaceChar)).reverse)

theorem find_last_non_space_eq_none_iff (l : List Char) :
    find_last_non_space l = none ↔ ∀ c ∈ l, c = spaceChar := by
  induction l with
  | nil => simp [find_last_non_space]
  | cons c cs ih =>
      constructor
      · intro h
        rcases hcs : find_last_non_space cs with _ | j
        · simp only [find_last_non_space, hcs] at h
          by_cases hc : c = spaceChar
          · intro x hx
            rcases List.mem_cons.mp hx with rfl | hx
            · exact hc
            · exact ih.mp hcs x hx
          · simp [hc] at h
        · simp only [find_last_non_space, hcs] at h
          exact Option.noConfusion h
      · intro h
        have hcs : find_last_non_space cs = none :=
          ih.mpr fun x hx => h x (List.mem_cons_of_mem c hx)
        simp [find_last_non_space, hcs, h c (List.mem_cons_self c cs)]

theorem dropWhile_append_of_forall {p : Char → Bool} (xs ys : List Char)
    (h : ∀ x ∈ xs, p x = true) :
    (xs ++ ys).dropWhile p = ys.dropWhile p := by
  induction xs with
  | nil => rfl
  | cons x xs ih =>
      simp only [List.cons_append, List.dropWhile_cons, h x (List.mem_cons_self x xs), if_true]
      exact ih fun y hy => h y (List.mem_cons_of_mem x hy)

theorem dropWhile_append_of_exists {p : Char → Bool} (xs ys : List Char)
    (h : ∃ x ∈ xs, ¬ p x = true) :
    (xs ++ ys).dropWhile p = xs.dropWhile p ++ ys := by
  induction xs with
  | nil =>
      obtain ⟨x, hx, _⟩ := h
      exact absurd hx (List.not_mem_nil x)
  | cons x xs ih =>
      by_cases hx : p x = true
      · obtain ⟨y, hy, hyp⟩ := h
        have hy' : y ∈ xs := by
          rcases List.mem_cons.mp hy with rfl | hy'
          · exact absurd hx hyp
          · exact hy'
        simp only [List.cons_append, List.dropWhile_cons, hx, if_true]
        exact ih ⟨y, hy', hyp⟩
      · simp [List.dropWhile_cons, hx]

theorem find_last_non_space_take (l : List Char) (i : Nat)
    (h : find_last_non_space l = some i) :
    l.take (i + 1) = (l.reverse.dropWhile (fun c => c == spaceChar)).reverse := by
  induction l generalizing i with
  | nil => simp [find_last_non_space] at h
  | cons c cs ih =>
      rcases hcs : find_last_non_space cs with _ | j
      · simp only [find_last_non_space, hcs] at h
        by_cases hc : c = spaceChar
        · simp [hc] at h
        · rw [if_neg hc] at h
          have hi : i = 0 := (Option.some.inj h).symm
          subst hi
          have hall : ∀ x ∈ cs, x = spaceChar := (find_last_non_space_eq_none_iff cs).mp hcs
          have hall' : ∀ x ∈ cs.reverse, (fun c => c == spaceChar) x = true := by
            intro x hx
            simp [hall x (List.mem_reverse.mp hx)]
          rw [List.reverse_cons, dropWhile_append_of_forall cs.reverse [c] hall']
          have hcb : (c == spaceChar) = false := by simp [hc]
          have htail : ∀ x ∈ cs.take 0, x = x := fun _ _ => rfl
          simp [List.dropWhile_cons, hcb]
      · simp only [find_last_non_space, hcs] at h
        have hij : i = j + 1 := (Option.some.inj h).symm
        subst hij
        have hex : ∃ x ∈ cs, x ≠ spaceChar := by
          by_contra hno
          push_neg at hno
          have hnone : find_last_non_space cs = none :=
            (find_last_non_space_eq_none_iff cs).mpr hno
          rw [hnone] at hcs
          exact Option.noConfusion hcs
        obtain ⟨x, hx, hxne⟩ := hex
        have hex' : ∃ y ∈ cs.reverse, ¬ (fun c => c == spaceChar) y = true := by
          refine ⟨x, List.mem_reverse.mpr hx, ?_⟩
          simp [hxne]
        rw [List.reverse_cons, dropWhile_append_of_exists cs.reverse [c] hex',
          List.reverse_append, List.reverse_singleton, List.singleton_append,
          List.take_succ_cons, ih j hcs]

/-- C10: `remove_spaces_telemac_var_name` returns the input with trailing spaces
removed when the input has at least one non-space character, and the literal
`"NONE"` when the input is empty or all spaces. -/
theorem C10_remove_spaces_telemac_var_name (s : String) :
    ((∀ c ∈ s.data, c = spaceChar) → remove_spaces_telemac_var_name s = "NONE") ∧
      ((∃ c ∈ s.data, c ≠ spaceChar) →
        remove_spaces_telemac_var_name s = drop_trailing_spaces s) := by
  constructor
  · intro h
    have hnone : find_last_non_space s.data = none :=
      (find_last_non_space_eq_none_iff s.data).mpr h
    simp [remove_spaces_telemac_var_name, hnone]
  · intro h
    rcases hfind : find_last_non_space s.data with _ | i
    · obtain ⟨c, hc, hcne⟩ := h
      exact absurd ((find_last_non_space_eq_none_iff s.data).mp hfind c hc) hcne
    · simp only [remove_spaces_telemac_var_name, hfind, drop_trailing_spaces]
      rw [find_last_non_space_take s.data i hfind]

theorem C10_remove_spaces_telemac_var_name_witness :
    (∃ c ∈ ("AB ").data, c ≠ spaceChar) ∧
      remove_spaces_telemac_var_name "AB " = drop_trailing_spaces "AB " ∧
      (∀ c ∈ ("  ").data, c = spaceChar) ∧
      remove_spaces_telemac_var_name "  " = "NONE" ∧
      drop_trailing_spaces "AB " = "AB" :=
  ⟨by decide, (C10_remove_spaces_telemac_var_name "AB ").2 (by decide), by decide,
    (C10_remove_spaces_telemac_var_name "  ").1 (by decide), by decide⟩

/-! ### TELEMAC temporary data (`TBB_TelemacTemporaryData.read`, tbb/properties/telemac/temporary_data.py:107-124) -/

/-- Python exceptions raised by the embedded code paths. -/
inductive PyErr where
  | valueError
  | indexError
  | osError
deriving DecidableEq

/-- Modelled from the spec: the `Serafin` TELEMAC file reader
(`tbb/properties/telemac/serafin.py`, not under `src/`).  `temps` is the array of
time-step times in the file, so the number of time points `nb_pdt` is its length;
`read(t)` returns the per-variable data recorded at time `t`. -/
structure Serafin where
  temps : List ℚ
  read_at : ℚ → List (List ℚ)

/-- Modelled from the spec: `nb_pdt`, the number of time points of the file. -/
def Serafin.nb_pdt (f : Serafin) : Nat := f.temps.length

/-- The `TBB_TelemacTemporaryData` class with the fields its `read` method uses:
`__init__` sets `nb_time_points = self.file.nb_pdt`. -/
structure TBB_TelemacTemporaryData where
  file : Serafin
  nb_time_points : Nat

/-- Embedding of `TBB_TelemacTemporaryData.read` (`tbb/properties/telemac/temporary_data.py:107-124`):
raises `ValueError` when `time_point > nb_time_points or time_point < 0`, otherwise
returns `self.file.read(self.file.temps[time_point])`; an out-of-range list index
in that expression raises `IndexError` (python list semantics). -/
def TBB_TelemacTemporaryData.read (td : TBB_TelemacTemporaryData) (time_point : Int) :
    Except PyErr (List (List ℚ)) :=
  if time_point > (td.nb_time_points : Int) ∨ time_point < 0 then
    Except.error PyErr.valueError
  else
    match td.file.temps.get? time_point.toNat with
    | none => Except.error PyErr.indexError
    | some t => Except.ok (td.file.read_at t)

/-- A concrete TELEMAC temporary-data value with one time point, as `__init__`
builds it (`nb_time_points = file.nb_pdt = len(file.temps)`). -/
def telemac_td1 : TBB_TelemacTemporaryData :=
  { file := { temps := [0], read_at := fun _ => [] }, nb_time_points := 1 }

/-- C5 (code bug): at the requested time point `nb_time_points` — which does not
exist, valid indices being `0 .. nb_time_points - 1` — the range check
`time_point > self.nb_time_points` passes (it uses `>` instead of `>=`), and the
lookup `self.file.temps[time_point]` then raises `IndexError`, not the
`ValueError` documented in the method's docstring.  In-range time points return
data without raising. -/
theorem C5_read_boundary_raises_index_error :
    telemac_td1.nb_time_points = telemac_td1.file.nb_pdt ∧
      TBB_TelemacTemporaryData.read telemac_td1 1 = Except.error PyErr.indexError ∧
      TBB_TelemacTemporaryData.read telemac_td1 0
        = Except.ok (telemac_td1.file.read_at 0) ∧
      TBB_TelemacTemporaryData.read telemac_td1 2 = Except.error PyErr.valueError ∧
      TBB_TelemacTemporaryData.read telemac_td1 (-1) = Except.error PyErr.valueError :=
  ⟨rfl, rfl, rfl, rfl, rfl⟩

/-! ### OpenFOAM data model (tbb/properties/openfoam, pyvista environment) -/

/-- A 3-component vector of (idealised) floats. -/
abbrev Vec3 := ℚ × ℚ × ℚ

/-- A point-data field array of a pyvista mesh: 1-D (scalar per point) or 2-D
(3-vector per point). -/
inductive FieldData where
  | scalar (values : List ℚ)
  | vector (values : List Vec3)
deriving DecidableEq

/-- Number of dimensions of the numpy array holding the field
(`len(mesh.get_array(key).shape)`). -/
def FieldData.ndim : FieldData → Nat
  | .scalar _ => 1
  | .vector _ => 2

/-- Numpy fancy indexing `array[vertex_ids]`.  (python raises on an out-of-range
id; the claims only sample valid ids, an out-of-range id reads a default here.) -/
def FieldData.index : FieldData → List Nat → FieldData
  | .scalar v, ids => .scalar (ids.map (fun i => v.getD i 0))
  | .vector v, ids => .vector (ids.map (fun i => v.getD i (0, 0, 0)))

/-- All entries of the array, flattened in row-major order (the order on which
`np.min` / `np.max` of the whole array range). -/
def FieldData.flatten : FieldData → List ℚ
  | .scalar v => v
  | .vector v => v.flatMap (fun p => [p.1, p.2.1, p.2.2])

/-- Elementwise map over every entry of the array. -/
def FieldData.emap (f : ℚ → ℚ) : FieldData → FieldData
  | .scalar v => .scalar (v.map f)
  | .vector v => .vector (v.map (fun p => (f p.1, f p.2.1, f p.2.2)))

theorem FieldData.flatten_emap (f : ℚ → ℚ) (d : FieldData) :
    (d.emap f).flatten = d.flatten.map f := by
  cases d with
  | scalar v => rfl
  | vector v =>
      induction v with
      | nil => rfl
      | cons p ps ih =>
          simp only [FieldData.emap, FieldData.flatten, List.map_cons, List.flatMap_cons] at *
          rw [List.map_append, ih]
          rfl

/-- Computes `np.min` of a nonempty array (numpy raises on an empty one; the `0` sentinel
for `[]` is never relied upon). -/
def np_min : List ℚ → ℚ
  | [] => 0
  | x :: xs => xs.foldl min x

/-- Computes `np.max` of a nonempty array. -/
def np_max : List ℚ → ℚ
  | [] => 0
  | x :: xs => xs.foldl max x

theorem foldl_min_le_init (xs : List ℚ) (a : ℚ) : xs.foldl min a ≤ a := by
  induction xs generalizing a with
  | nil => exact le_refl a
  | cons x xs ih => exact le_trans (ih (min a x)) (min_le_left a x)

theorem foldl_min_le_mem (xs : List ℚ) (y : ℚ) : y ∈ xs → ∀ a, xs.foldl min a ≤ y := by
  induction xs with
  | nil => exact fun hy _ => absurd hy (List.not_mem_nil y)
  | cons x xs ih =>
      intro hy a
      rcases List.mem_cons.mp hy with rfl | hy'
      · exact le_trans (foldl_min_le_init xs (min a y)) (min_le_right a y)
      · exact ih hy' (min a x)

theorem init_le_foldl_max (xs : List ℚ) (a : ℚ) : a ≤ xs.foldl max a := by
  induction xs generalizing a with
  | nil => exact le_refl a
  | cons x xs ih => exact le_trans (le_max_left a x) (ih (max a x))

theorem mem_le_foldl_max (xs : List ℚ) (y : ℚ) : y ∈ xs → ∀ a, y ≤ xs.foldl max a := by
  induction xs with
  | nil => exact fun hy _ => absurd hy (List.not_mem_nil y)
  | cons x xs ih =>
      intro hy a
      rcases List.mem_cons.mp hy with rfl | hy'
      · exact le_trans (le_max_right a y) (init_le_foldl_max xs (max a y))
      · exact ih hy' (max a x)

theorem np_min_le_of_mem (l : List ℚ) (y : ℚ) (hy : y ∈ l) : np_min l ≤ y := by
  cases l with
  | nil => exact absurd hy (List.not_mem_nil y)
  | cons x xs =>
      rcases List.mem_cons.mp hy with rfl | hy'
      · exact foldl_min_le_init xs y
      · exact foldl_min_le_mem xs y hy' x

theorem le_np_max_of_mem (l : List ℚ) (y : ℚ) (hy : y ∈ l) : y ≤ np_max l := by
  cases l with
  | nil => exact absurd hy (List.not_mem_nil y)
  | cons x xs =>
      rcases List.mem_cons.mp hy with rfl | hy'
      · exact init_le_foldl_max xs y
      · exact mem_le_foldl_max xs y hy' x

theorem np_min_lt_np_max_of_ne (l : List ℚ) (a b : ℚ) (ha : a ∈ l) (hb : b ∈ l)
    (hab : a ≠ b) : np_min l < np_max l := by
  rcases lt_or_eq_of_le (le_trans (np_min_le_of_mem l a ha) (le_np_max_of_mem l a ha))
    with h | h
  · exact h
  · exfalso
    apply hab
    have ha1 : a = np_max l := le_antisymm (le_np_max_of_mem l a ha) (h ▸ np_min_le_of_mem l a ha)
    have hb1 : b = np_max l := le_antisymm (le_np_max_of_mem l b hb) (h ▸ np_min_le_of_mem l b hb)
    rw [ha1, hb1]

/-! ### Clip settings (`TBB_OpenfoamClipProperty`, tbb/properties/openfoam/openfoam_clip.py) -/

/-- The `TBB_OpenfoamClipScalarProperty` group: the clip-scalar settings used by
`generate_mesh_data`.  `name` is the EnumProperty item of the scalar to clip on,
formatted `"<field>@<value_type>"` (value types `value` / `vector_value`). -/
structure TBB_OpenfoamClipScalarProperty where
  name : String
  value : ℚ
  vector_value : Vec3
  invert : Bool
deriving DecidableEq

/-- The `TBB_OpenfoamClipProperty` group: `type` is the EnumProperty in
`{"no_clip", "scalar"}`. -/
structure TBB_OpenfoamClipProperty where
  type : String
  scalar : TBB_OpenfoamClipScalarProperty
deriving DecidableEq

/-- The separator characters used by the embedded code: `"@"` and `";"`. -/
def atChar : Char := Char.ofNat 64

/-- Semicolon, the separator of `list_point_data`. -/
def semicolonChar : Char := Char.ofNat 59

/-- Python `str.split(sep)` for a one-character separator, on the character
list: every occurrence of the separator starts a new (possibly empty) chunk, and
splitting the empty string yields `[[]]`. -/
def split_chars (sep : Char) : List Char → List (List Char)
  | [] => [[]]
  | c :: cs =>
      let rest := split_chars sep cs
      if c = sep then [] :: rest
      else
        match rest with
        | r :: rs => (c :: r) :: rs
        | [] => [[c]]

/-- Python `str.split(sep)` for a one-character separator.  (`String.splitOn`
has the same behaviour but does not reduce inside the kernel.) -/
def py_split (s : String) (sep : Char) : List String :=
  (split_chars sep s.data).map String.mk

/-- Computes `np.linalg.norm` of a 3-vector: the Euclidean (2-)norm, idealised over ℝ. -/
noncomputable def np_linalg_norm (v : Vec3) : ℝ :=
  Real.sqrt (((v.1 * v.1 + v.2.1 * v.2.1 + v.2.2 * v.2.2 : ℚ) : ℝ))

/-! ### Symbolic pyvista meshes -/

/-- A pyvista `UnstructuredGrid`/`PolyData` value, represented symbolically: the
base constructor stands for a mesh freshly read from a file (tagged by an opaque
id), and each pyvista operation the glue code invokes is recorded as a
constructor with the exact arguments the code passes.  The numerical effect of
the operations belongs to the external library and is supplied by an environment
(`PvEnv.attrs`). -/
inductive PvMeshE where
  | base (tag : Nat)
  | set_active_scalars (m : PvMeshE) (name preference : String)
  | clip_scalar (m : PvMeshE) (scalars : String) (invert : Bool) (value : ℝ)
  | extract_surface (m : PvMeshE) (nonlinear_subdivision : Nat)
  | triangulate (m : PvMeshE)
  | compute_normals (m : PvMeshE)

/-- The `clip_scalar` invocations recorded in a mesh term, innermost first:
`(scalars, invert, value)` as passed to pyvista. -/
def PvMeshE.clip_ops : PvMeshE → List (String × Bool × ℝ)
  | .base _ => []
  | .set_active_scalars m _ _ => m.clip_ops
  | .clip_scalar m s i v => m.clip_ops ++ [(s, i, v)]
  | .extract_surface m _ => m.clip_ops
  | .triangulate m => m.clip_ops
  | .compute_normals m => m.clip_ops

/-- Attributes of a pyvista mesh that the glue code reads back after the library
operations: points, the flat faces array, the reported number of faces, the
all-triangles flag and the point-data field arrays. -/
structure MeshAttrs where
  points : List Vec3
  faces : List Nat
  n_faces : Nat
  is_all_triangles : Bool
  point_data : List (String × FieldData)

/-- An OpenFOAM file reader (pyvista `OpenFOAMReader` / `POpenFOAMReader`):
number of available time points and, for each active time point, the
`internalMesh` block returned by `reader.read()`. -/
structure OpenFOAMReader where
  number_time_points : Nat
  mesh_at : Int → PvMeshE
  case_type : String
  decompose_polyhedra : Bool

/-- A Blender mesh as used by the OpenFOAM pipeline: geometry set through
`from_pydata`, loop triangles (each refers to three vertex ids), per-polygon
smooth-shading flags and the vertex-color layers. -/
structure BlenderMesh where
  vertices : List Vec3
  faces : List (List Nat)
  loop_triangles : List (Nat × Nat × Nat)
  polygons_use_smooth : List Bool
  vertex_colors : Option (List (String × String) × List (String × FieldData) × Nat)

/-- Embedding of `Mesh.clear_geometry()`. -/
def BlenderMesh.clear_geometry (bm : BlenderMesh) : BlenderMesh :=
  { bm with vertices := [], faces := [], loop_triangles := [], polygons_use_smooth := [] }

/-- Embedding of `Mesh.from_pydata(vertices, [], faces)`: rebuilds the geometry; derived data
such as loop triangles is not populated until recomputed. -/
def BlenderMesh.from_pydata (bm : BlenderMesh) (vertices : List Vec3)
    (faces : List (List Nat)) : BlenderMesh :=
  { bm with vertices := vertices, faces := faces }

/-- The external world as seen by the embedded code: the filesystem check
(`Path(file_path).exists()`), the pyvista reader construction, the attributes
the external library computes for a symbolic mesh term, and Blender's
`calc_loop_triangles`. -/
structure PvEnv where
  exists_file : String → Bool
  reader_of : String → OpenFOAMReader
  attrs : PvMeshE → MeshAttrs
  calc_loop_triangles : BlenderMesh → List (Nat × Nat × Nat)

/-! ### `load_openfoam_file` (tbb/operators/openfoam/utils.py:445-473) -/

/-- Embedding of `load_openfoam_file`: returns `(False, None)` when the path does not exist;
otherwise builds a reader and sets `case_type` and `decompose_polyhedra` on it.
(The source's `if case_type == 1:` compares a string with an int and is always
false, so the `POpenFOAMReader` branch — which assigns `case_type` — is always
taken.) -/
def load_openfoam_file (env : PvEnv) (file_path : String) (case_type : String)
    (decompose_polyhedra : Bool) : Bool × Option OpenFOAMReader :=
  if ¬ env.exists_file file_path then (false, none)
  else
    let file_reader := env.reader_of file_path
    let file_reader := { file_reader with case_type := case_type }
    let file_reader := { file_reader with decompose_polyhedra := decompose_polyhedra }
    (true, some file_reader)

/-! ### `generate_mesh_data` (tbb/operators/openfoam/utils.py:78-138) -/

/-- The trailing `if triangulate:` block of `generate_mesh_data`:
`mesh.triangulate(inplace=True)` followed by
`mesh.compute_normals(inplace=True, ...)`. -/
def tri_wrap (triangulate : Bool) (mesh : PvMeshE) : PvMeshE :=
  if triangulate then PvMeshE.compute_normals (PvMeshE.triangulate mesh) else mesh

/-- Embedding of `generate_mesh_data` (`tbb/operators/openfoam/utils.py:78-138`): reads the
`internalMesh` from the reader when no mesh is given, applies the scalar clip
when the clip settings ask for one, extracts the surface, optionally
triangulates, and reshapes the flat faces array.  Returns vertices, faces and
the (symbolic) output mesh.  Note: `clip.scalar.name.split("@")[1]` raises in
python when the name has no `"@"`; the EnumProperty items are always of the form
`"<field>@<value_type>"`, and a missing part is read as `""` here. -/
noncomputable def generate_mesh_data (env : PvEnv) (file_reader : OpenFOAMReader)
    (time_point : Int) (triangulate : Bool) (clip : Option TBB_OpenfoamClipProperty)
    (mesh_arg : Option PvMeshE) : List Vec3 × List (List Nat) × PvMeshE :=
  let mesh :=
    match mesh_arg with
    | none => file_reader.mesh_at time_point
    | some m => m
  let mesh :=
    match clip with
    | some c =>
      if c.type = "scalar" then
        let name := (py_split c.scalar.name atChar).getD 0 ""
        let value_type := (py_split c.scalar.name atChar).getD 1 ""
        let mesh := PvMeshE.set_active_scalars mesh name "point"
        let mesh :=
          if value_type = "value" then
            PvMeshE.clip_scalar mesh name c.scalar.invert ((c.scalar.value : ℝ))
          else mesh
        let mesh :=
          if value_type = "vector_value" then
            PvMeshE.clip_scalar mesh name c.scalar.invert (np_linalg_norm c.scalar.vector_value)
          else mesh
        PvMeshE.extract_surface mesh 0
      else PvMeshE.extract_surface mesh 0
    | none => PvMeshE.extract_surface mesh 0
  let mesh := tri_wrap triangulate mesh
  let vertices := (env.attrs mesh).points
  let faces :=
    if (env.attrs mesh).is_all_triangles then
      reshape_faces_triangles (env.attrs mesh).faces
    else
      reshape_faces_padding (env.attrs mesh).n_faces (env.attrs mesh).faces
  (vertices, faces, mesh)

theorem clip_ops_tri_wrap (triangulate : Bool) (m : PvMeshE) :
    (tri_wrap triangulate m).clip_ops = m.clip_ops := by
  cases triangulate <;> simp [tri_wrap, PvMeshE.clip_ops]

/-- C4: for a clip of type `"scalar"`, mesh generation applies exactly one
scalar-threshold clip, before surface extraction; the threshold is
`clip.scalar.value` unchanged for value type `"value"` and the Euclidean norm of
`clip.scalar.vector_value` for value type `"vector_value"`; for `clip = None` or
type `"no_clip"` no clip is applied. -/
theorem C4_clip_application (env : PvEnv) (fr : OpenFOAMReader) (tp : Int)
    (tri : Bool) (c : TBB_OpenfoamClipProperty) :
    (c.type = "scalar" →
      ((py_split c.scalar.name atChar).getD 1 "" = "value" →
        (generate_mesh_data env fr tp tri (some c) none).2.2
          = tri_wrap tri (PvMeshE.extract_surface
              (PvMeshE.clip_scalar
                (PvMeshE.set_active_scalars (fr.mesh_at tp)
                  ((py_split c.scalar.name atChar).getD 0 "") "point")
                ((py_split c.scalar.name atChar).getD 0 "") c.scalar.invert
                ((c.scalar.value : ℝ))) 0) ∧
        ((fr.mesh_at tp).clip_ops = [] →
          (generate_mesh_data env fr tp tri (some c) none).2.2.clip_ops
            = [((py_split c.scalar.name atChar).getD 0 "", c.scalar.invert,
                ((c.scalar.value : ℝ)))])) ∧
      ((py_split c.scalar.name atChar).getD 1 "" = "vector_value" →
        (generate_mesh_data env fr tp tri (some c) none).2.2
          = tri_wrap tri (PvMeshE.extract_surface
              (PvMeshE.clip_scalar
                (PvMeshE.set_active_scalars (fr.mesh_at tp)
                  ((py_split c.scalar.name atChar).getD 0 "") "point")
                ((py_split c.scalar.name atChar).getD 0 "") c.scalar.invert
                (np_linalg_norm c.scalar.vector_value)) 0) ∧
        ((fr.mesh_at tp).clip_ops = [] →
          (generate_mesh_data env fr tp tri (some c) none).2.2.clip_ops
            = [((py_split c.scalar.name atChar).getD 0 "", c.scalar.invert,
                np_linalg_norm c.scalar.vector_value)]))) ∧
    (c.type = "no_clip" →
      (generate_mesh_data env fr tp tri (some c) none).2.2.clip_ops
        = (fr.mesh_at tp).clip_ops) ∧
    (generate_mesh_data env fr tp tri none none).2.2.clip_ops
      = (fr.mesh_at tp).clip_ops := by
  refine ⟨?_, ?_, ?_⟩
  · intro hs
    constructor
    · intro hv
      have hv' : ¬ ((py_split c.scalar.name atChar).getD 1 "" = "vector_value") := by
        rw [hv]; decide
      simp only [List.getD_eq_getElem?_getD] at hv hv'
      constructor
      · simp [generate_mesh_data, hs, hv, hv']
      · intro hbase
        simp [generate_mesh_data, hs, hv, hv', clip_ops_tri_wrap, PvMeshE.clip_ops, hbase]
    · intro hv
      have hv' : ¬ ((py_split c.scalar.name atChar).getD 1 "" = "value") := by
        rw [hv]; decide
      simp only [List.getD_eq_getElem?_getD] at hv hv'
      constructor
      · simp [generate_mesh_data, hs, hv, hv']
      · intro hbase
        simp [generate_mesh_data, hs, hv, hv', clip_ops_tri_wrap, PvMeshE.clip_ops, hbase]
  · intro hn
    have hs : ¬ (c.type = "scalar") := by rw [hn]; decide
    simp [generate_mesh_data, hs, clip_ops_tri_wrap, PvMeshE.clip_ops]
  · simp [generate_mesh_data, clip_ops_tri_wrap, PvMeshE.clip_ops]

/-- Attributes of an empty mesh, used as an environment for concrete checks. -/
def mesh_attrs_empty : MeshAttrs :=
  { points := [], faces := [], n_faces := 0, is_all_triangles := true, point_data := [] }

/-- A concrete OpenFOAM reader with a single time point. -/
def sample_reader : OpenFOAMReader :=
  { number_time_points := 1, mesh_at := fun _ => PvMeshE.base 0,
    case_type := "reconstructed", decompose_polyhedra := false }

/-- A concrete environment in which every file exists. -/
def sample_env : PvEnv :=
  { exists_file := fun _ => true, reader_of := fun _ => sample_reader,
    attrs := fun _ => mesh_attrs_empty, calc_loop_triangles := fun _ => [] }

/-- A concrete environment in which no file exists. -/
def sample_env_missing : PvEnv :=
  { exists_file := fun _ => false, reader_of := fun _ => sample_reader,
    attrs := fun _ => mesh_attrs_empty, calc_loop_triangles := fun _ => [] }

/-- Concrete clip settings: clip on scalar `p`, threshold value 1. -/
def clip_value_sample : TBB_OpenfoamClipProperty :=
  { type := "scalar",
    scalar := { name := "p@value", value := 1, vector_value := (3, 0, 4), invert := false } }

theorem C4_clip_application_witness :
    (clip_value_sample.type = "scalar") ∧
      ((py_split clip_value_sample.scalar.name atChar).getD 1 "" = "value") ∧
      ((sample_reader.mesh_at 0).clip_ops = []) ∧
      (generate_mesh_data sample_env sample_reader 0 true (some clip_value_sample)
          none).2.2.clip_ops
        = [("p", false, (((1 : ℚ) : ℝ)))] := by
  refine ⟨rfl, by decide, rfl, ?_⟩
  exact (((C4_clip_application sample_env sample_reader 0 true clip_value_sample).1
    rfl).1 (by decide)).2 rfl

/-! ### Point-data preparation (`prepare_openfoam_point_data`, tbb/operators/openfoam/utils.py:292-373) -/

/-- Models `mesh.point_data.keys()` membership plus `mesh.get_array(key, preference='point')`,
over the modelled point-data association list. -/
def lookup_point_data (point_data : List (String × FieldData)) (key : String) :
    Option FieldData :=
  (point_data.find? (fun e => e.1 == key)).map (fun e => e.2)

/-- Modelled from the spec: `remap_array` (`tbb/operators/utils.py`, not under
`src/`) — the linear remapping of field values from `[in_min, in_max]` into the
normalized `[0, 1]` color range, applied elementwise. -/
def remap_array (data : FieldData) (in_min in_max : ℚ) : FieldData :=
  data.emap (fun x => (x - in_min) / (in_max - in_min))

/-- One entry of `filtered_variables` in `prepare_openfoam_point_data`:
`{"name": key, "type": 'SCALAR' | 'VECTOR', "id": key}`. -/
structure VarInfo where
  name : String
  type : String
  id : String
deriving DecidableEq

/-- The `filtered_variables` loop of `prepare_openfoam_point_data`
(`tbb/operators/openfoam/utils.py:333-354`): empty entries are filtered out;
each raw key `"<field>@<type>"` is split; when no `"@<type>"` part is present
(user-supplied list), a key absent from the mesh's point data is skipped and an
existing key's type is derived from the array's number of dimensions; `"None"`
keys are dropped. -/
def filter_point_data_variables (point_data : List (String × FieldData))
    (list_point_data : List String) : List VarInfo :=
  (list_point_data.filter (fun s => !(s == ""))).foldl (fun acc raw_key =>
    let parts := py_split raw_key atChar
    let key := parts.getD 0 ""
    match parts.get? 1 with
    | some ty =>
        if key ≠ "None" then
          acc ++ [{ name := key, type := if ty = "value" then "SCALAR" else "VECTOR", id := key }]
        else acc
    | none =>
        match lookup_point_data point_data key with
        | none => acc
        | some arr =>
            let ty := if arr.ndim = 1 then "value" else "vector_value"
            if key ≠ "None" then
              acc ++ [{ name := key, type := if ty = "value" then "SCALAR" else "VECTOR", id := key }]
            else acc)
    []

/-- The per-variable body of the `for var in filtered_variables:` loop of
`prepare_openfoam_point_data` (`tbb/operators/openfoam/utils.py:359-371`):
`data = mesh.get_array(var["id"], preference='point')[vertex_ids]`, then with
`normalize == 'LOCAL'` the local `min`/`max` of the sampled data, then
`remap_array(data, in_min=min, in_max=max)`.  The `'GLOBAL'` branch is an
unimplemented TODO in the source (placeholder `±inf` bounds) and is not
modelled; `get_array` raises in python on a missing key, here a missing key
reads an empty array.  A `VECTOR` result is stored per column
(`[data[:, 0], data[:, 1], data[:, 2]]`), which `FieldData.vector` retains. -/
def prepare_var_data (point_data : List (String × FieldData)) (vertex_ids : List Nat)
    (normalize : String) (id : String) : FieldData :=
  let arr := (lookup_point_data point_data id).getD (FieldData.scalar [])
  let data := arr.index vertex_ids
  let mn := if normalize = "LOCAL" then np_min data.flatten else 0
  let mx := if normalize = "LOCAL" then np_max data.flatten else 0
  remap_array data mn mx

/-- Modelled from the spec: `generate_vertex_colors_groups`
(`tbb/operators/utils.py`, not under `src/`) — builds the vertex-color group
descriptors (group name, variable id) for the filtered variables. -/
def generate_vertex_colors_groups (vs : List VarInfo) : List (String × String) :=
  vs.map (fun v => (v.name, v.id))

/-- Embedding of `prepare_openfoam_point_data` (`tbb/operators/openfoam/utils.py:292-373`):
computes `vertex_ids` from the blender mesh's loop triangles (recomputing them
when empty), filters the requested point-data keys, remaps each selected field
over the sampled vertices, and returns the vertex-colors groups, the prepared
data and the number of vertex ids.  The loop-triangle recomputation mutates the
blender mesh in python; the updated mesh is returned explicitly here. -/
def prepare_openfoam_point_data (env : PvEnv) (mesh : PvMeshE) (blender_mesh : BlenderMesh)
    (list_point_data : List String) (time_point : Int) (normalize : String) :
    BlenderMesh × List (String × String) × List (String × FieldData) × Nat :=
  let blender_mesh :=
    if blender_mesh.loop_triangles.length = 0 then
      { blender_mesh with loop_triangles := env.calc_loop_triangles blender_mesh }
    else blender_mesh
  let vertex_ids := blender_mesh.loop_triangles.flatMap (fun t => [t.1, t.2.1, t.2.2])
  let point_data := (env.attrs mesh).point_data
  let filtered_variables := filter_point_data_variables point_data list_point_data
  let prepared_data := filtered_variables.map
    (fun var => (var.id, prepare_var_data point_data vertex_ids normalize var.id))
  (blender_mesh, generate_vertex_colors_groups filtered_variables, prepared_data,
    vertex_ids.length)

theorem remap_bounds (x mn mx : ℚ) (hlt : mn < mx) (hx1 : mn ≤ x) (hx2 : x ≤ mx) :
    0 ≤ (x - mn) / (mx - mn) ∧ (x - mn) / (mx - mn) ≤ 1 := by
  have hpos : (0 : ℚ) < mx - mn := sub_pos.mpr hlt
  constructor
  · exact div_nonneg (sub_nonneg.mpr hx1) (le_of_lt hpos)
  · rw [div_le_one hpos]
    exact sub_le_sub_right hx2 mn

/-- C3: with `normalize = 'LOCAL'`, for a selected point-data field that exists
in the mesh and is not constant over the sampled vertices, every per-vertex
color value produced by the remapping step lies in `[0, 1]`, a sampled entry
equal to the field's minimum sampled value is mapped to 0 and one equal to its
maximum sampled value is mapped to 1. -/
theorem C3_local_remap_normalized (point_data : List (String × FieldData))
    (vertex_ids : List Nat) (id : String) (arr : FieldData)
    (harr : lookup_point_data point_data id = some arr)
    (hnc : ∃ a ∈ (arr.index vertex_ids).flatten, ∃ b ∈ (arr.index vertex_ids).flatten,
      a ≠ b) :
    (∀ y ∈ (prepare_var_data point_data vertex_ids "LOCAL" id).flatten,
        0 ≤ y ∧ y ≤ 1) ∧
      (∀ k, k < ((arr.index vertex_ids).flatten).length →
        (((arr.index vertex_ids).flatten).getD k 0
            = np_min ((arr.index vertex_ids).flatten) →
          ((prepare_var_data point_data vertex_ids "LOCAL" id).flatten).getD k 0 = 0) ∧
        (((arr.index vertex_ids).flatten).getD k 0
            = np_max ((arr.index vertex_ids).flatten) →
          ((prepare_var_data point_data vertex_ids "LOCAL" id).flatten).getD k 0 = 1)) := by
  obtain ⟨a, ha, b, hb, hab⟩ := hnc
  have hlt : np_min ((arr.index vertex_ids).flatten)
      < np_max ((arr.index vertex_ids).flatten) :=
    np_min_lt_np_max_of_ne _ a b ha hb hab
  have hpos : (0 : ℚ) < np_max ((arr.index vertex_ids).flatten)
      - np_min ((arr.index vertex_ids).flatten) := sub_pos.mpr hlt
  have hout : (prepare_var_data point_data vertex_ids "LOCAL" id).flatten
      = ((arr.index vertex_ids).flatten).map
          (fun x => (x - np_min ((arr.index vertex_ids).flatten))
            / (np_max ((arr.index vertex_ids).flatten)
              - np_min ((arr.index vertex_ids).flatten))) := by
    simp only [prepare_var_data, harr, Option.getD_some, remap_array, if_pos]
    exact FieldData.flatten_emap _ _
  constructor
  · intro y hy
    rw [hout] at hy
    obtain ⟨x, hx, rfl⟩ := List.mem_map.mp hy
    exact remap_bounds x _ _ hlt (np_min_le_of_mem _ x hx) (le_np_max_of_mem _ x hx)
  · intro k hk
    have hget : (((prepare_var_data point_data vertex_ids "LOCAL" id).flatten).getD k 0)
        = (fun x => (x - np_min ((arr.index vertex_ids).flatten))
            / (np_max ((arr.index vertex_ids).flatten)
              - np_min ((arr.index vertex_ids).flatten)))
          ((((arr.index vertex_ids).flatten)).getD k 0) := by
      rw [hout]
      rw [List.getD_eq_getElem?_getD, List.getD_eq_getElem?_getD, List.getElem?_map]
      rw [List.getElem?_eq_getElem hk]
      rfl
    constructor
    · intro hmin
      rw [hget, hmin]
      simp
    · intro hmax
      rw [hget, hmax]
      field_simp

theorem C3_local_remap_normalized_witness :
    (lookup_point_data [("p", FieldData.scalar [3, 1, 2])] "p"
        = some (FieldData.scalar [3, 1, 2])) ∧
      (∃ a ∈ ((FieldData.scalar [3, 1, 2]).index [0, 1, 2]).flatten,
        ∃ b ∈ ((FieldData.scalar [3, 1, 2]).index [0, 1, 2]).flatten, a ≠ b) ∧
      (∀ y ∈ (prepare_var_data [("p", FieldData.scalar [3, 1, 2])] [0, 1, 2]
          "LOCAL" "p").flatten, 0 ≤ y ∧ y ≤ 1) := by
  refine ⟨by decide, by decide, ?_⟩
  exact (C3_local_remap_normalized [("p", FieldData.scalar [3, 1, 2])] [0, 1, 2] "p"
    (FieldData.scalar [3, 1, 2]) (by decide) (by decide)).1

/-! ### Streaming sequences (tbb/operators/openfoam/utils.py:376-442) -/

/-- The `TBB_OpenfoamStreamingSequenceProperty` group (via
`TBB_ModuleStreamingSequenceSettings`), with the fields the streaming-sequence
code paths read. -/
structure TBB_OpenfoamStreamingSequenceProperty where
  name : String
  update : Bool
  frame_start : Int
  anim_length : Int
  file_path : String
  case_type : String
  decompose_polyhedra : Bool
  triangulate : Bool
  shade_smooth : Bool
  import_point_data : Bool
  list_point_data : String
  clip : TBB_OpenfoamClipProperty

/-- A Blender object as the streaming-sequence handler sees it:
`obj.tbb.is_streaming_sequence`, `obj.tbb.settings.openfoam.streaming_sequence`
(the property nesting is flattened here) and the object's mesh `obj.data`. -/
structure TBBObject where
  is_streaming_sequence : Bool
  streaming_sequence : TBB_OpenfoamStreamingSequenceProperty
  data : BlenderMesh

/-- A Blender scene as the handler sees it: the current frame,
`scene.tbb.create_sequence_is_running` and the scene objects. -/
structure TBBScene where
  frame_current : Int
  create_sequence_is_running : Bool
  objects : List TBBObject

/-- Modelled from the spec: `generate_vertex_colors` (`tbb/operators/utils.py`,
not under `src/`) — writes the prepared per-vertex color groups into the
blender mesh's vertex-color layers. -/
def generate_vertex_colors (blender_mesh : BlenderMesh)
    (groups : List (String × String)) (data : List (String × FieldData))
    (nb_vertex_ids : Nat) : BlenderMesh :=
  { blender_mesh with vertex_colors := some (groups, data, nb_vertex_ids) }

/-- Embedding of `update_openfoam_streaming_sequence_mesh`
(`tbb/operators/openfoam/utils.py:405-442`): loads the file (raising `OSError`
when that fails), checks the time point against the reader's
`number_time_points` (raising `ValueError` when it is too large), and only then
regenerates the object's mesh: clear geometry, `from_pydata`, optional smooth
shading of all polygons, optional vertex colors from the point data. -/
noncomputable def update_openfoam_streaming_sequence_mesh (env : PvEnv) (obj : TBBObject)
    (settings : TBB_OpenfoamStreamingSequenceProperty) (time_point : Int) :
    Except PyErr TBBObject :=
  match load_openfoam_file env settings.file_path settings.case_type
      settings.decompose_polyhedra with
  | (false, _) => Except.error PyErr.osError
  | (true, none) => Except.error PyErr.osError
  | (true, some file_reader) =>
    if time_point ≥ (file_reader.number_time_points : Int) then
      Except.error PyErr.valueError
    else
      let res := generate_mesh_data env file_reader time_point settings.triangulate
        (some settings.clip) none
      let vertices := res.1
      let faces := res.2.1
      let mesh := res.2.2
      let blender_mesh := obj.data
      let blender_mesh := blender_mesh.clear_geometry
      let blender_mesh := blender_mesh.from_pydata vertices faces
      let blender_mesh :=
        if settings.shade_smooth then
          { blender_mesh with
            polygons_use_smooth := List.replicate blender_mesh.faces.length true }
        else blender_mesh
      let blender_mesh :=
        if settings.import_point_data then
          let res := prepare_openfoam_point_data env mesh blender_mesh
            (py_split settings.list_point_data semicolonChar) time_point "LOCAL"
          generate_vertex_colors res.1 res.2.1 res.2.2.1 res.2.2.2
        else blender_mesh
      Except.ok { obj with data := blender_mesh }

/-- The per-object guard of `update_openfoam_streaming_sequences`
(`tbb/operators/openfoam/utils.py:389-395`): the time point with which the mesh
update is attempted, if any — the object must be flagged
`is_streaming_sequence`, its sequence settings' `update` flag must be set, and
`time_point = frame - frame_start` must satisfy
`time_point >= 0 and time_point < anim_length`. -/
def streaming_sequence_attempt (frame : Int) (obj : TBBObject) : Option Int :=
  let settings := obj.streaming_sequence
  if obj.is_streaming_sequence && settings.update then
    let time_point := frame - settings.frame_start
    if 0 ≤ time_point ∧ time_point < settings.anim_length then some time_point
    else none
  else none

/-- The per-object body of the handler's loop: when an update is attempted, the
mesh update runs and a raised exception is caught (and only logged), leaving
the object as it was. -/
noncomputable def process_streaming_sequence_object (env : PvEnv) (frame : Int)
    (obj : TBBObject) : TBBObject :=
  match streaming_sequence_attempt frame obj with
  | some time_point =>
      match update_openfoam_streaming_sequence_mesh env obj obj.streaming_sequence
          time_point with
      | Except.ok obj2 => obj2
      | Except.error _ => obj
  | none => obj

/-- Embedding of `update_openfoam_streaming_sequences`
(`tbb/operators/openfoam/utils.py:376-402`), the `frame_change_pre` handler:
when no create-sequence operation is running, every scene object goes through
the per-object update; otherwise nothing happens. -/
noncomputable def update_openfoam_streaming_sequences (env : PvEnv) (scene : TBBScene) :
    TBBScene :=
  if ¬ scene.create_sequence_is_running then
    { scene with
      objects := scene.objects.map (process_streaming_sequence_object env scene.frame_current) }
  else scene

/-- C1: on a frame change with `create_sequence_is_running` false, the handler
processes every scene object; an object's mesh update is attempted iff the
object is flagged `is_streaming_sequence`, its settings' `update` flag is set
and `t = frame_current - frame_start` satisfies `0 <= t < anim_length`; and the
attempted update is invoked with exactly that time point. -/
theorem C1_streaming_sequence_update_condition (env : PvEnv) (scene : TBBScene)
    (obj : TBBObject) (t : Int) (h : scene.create_sequence_is_running = false) :
    ((update_openfoam_streaming_sequences env scene).objects
        = scene.objects.map (process_streaming_sequence_object env scene.frame_current)) ∧
      (streaming_sequence_attempt scene.frame_current obj = some t ↔
        obj.is_streaming_sequence = true ∧ obj.streaming_sequence.update = true ∧
          t = scene.frame_current - obj.streaming_sequence.frame_start ∧
          0 ≤ t ∧ t < obj.streaming_sequence.anim_length) ∧
      (streaming_sequence_attempt scene.frame_current obj = some t →
        process_streaming_sequence_object env scene.frame_current obj
          = match update_openfoam_streaming_sequence_mesh env obj
              obj.streaming_sequence t with
            | Except.ok obj2 => obj2
            | Except.error _ => obj) := by
  refine ⟨?_, ?_, ?_⟩
  · simp [update_openfoam_streaming_sequences, h]
  · constructor
    · intro hat
      by_cases hflag : obj.is_streaming_sequence && obj.streaming_sequence.update
      · rw [streaming_sequence_attempt, if_pos hflag] at hat
        by_cases hrange : 0 ≤ scene.frame_current - obj.streaming_sequence.frame_start
            ∧ scene.frame_current - obj.streaming_sequence.frame_start
              < obj.streaming_sequence.anim_length
        · rw [if_pos hrange] at hat
          have ht : scene.frame_current - obj.streaming_sequence.frame_start = t :=
            Option.some.inj hat
          have hsplit : obj.is_streaming_sequence = true
              ∧ obj.streaming_sequence.update = true := by simpa using hflag
          exact ⟨hsplit.1, hsplit.2, ht.symm, ht ▸ hrange.1, ht ▸ hrange.2⟩
        · rw [if_neg hrange] at hat
          exact Option.noConfusion hat
      · rw [streaming_sequence_attempt, if_neg hflag] at hat
        exact Option.noConfusion hat
    · rintro ⟨h1, h2, rfl, h4, h5⟩
      have hflag : (obj.is_streaming_sequence && obj.streaming_sequence.update) = true := by
        simp [h1, h2]
      rw [streaming_sequence_attempt, if_pos hflag, if_pos ⟨h4, h5⟩]
  · intro hat
    rw [process_streaming_sequence_object, hat]

/-- A concrete streaming-sequence setting: frames 3..12, all flags needed by an
attempted update. -/
def seq_settings_sample : TBB_OpenfoamStreamingSequenceProperty :=
  { name := "fluid", update := true, frame_start := 3, anim_length := 10,
    file_path := "case.foam", case_type := "reconstructed",
    decompose_polyhedra := false, triangulate := true, shade_smooth := false,
    import_point_data := false, list_point_data := "", clip := clip_value_sample }

/-- An empty blender mesh. -/
def blender_mesh_empty : BlenderMesh :=
  { vertices := [], faces := [], loop_triangles := [], polygons_use_smooth := [],
    vertex_colors := none }

/-- A concrete streaming-sequence object. -/
def obj_sample : TBBObject :=
  { is_streaming_sequence := true, streaming_sequence := seq_settings_sample,
    data := blender_mesh_empty }

/-- A concrete scene at frame 5 with no create-sequence running. -/
def scene_sample : TBBScene :=
  { frame_current := 5, create_sequence_is_running := false, objects := [obj_sample] }

/-- The same scene while a create-sequence operation runs. -/
def scene_sample_running : TBBScene :=
  { frame_current := 5, create_sequence_is_running := true, objects := [obj_sample] }

theorem C1_streaming_sequence_update_condition_witness :
    (scene_sample.create_sequence_is_running = false) ∧
      (streaming_sequence_attempt scene_sample.frame_current obj_sample = some 2 ↔
        obj_sample.is_streaming_sequence = true ∧
          obj_sample.streaming_sequence.update = true ∧
          (2 : Int) = scene_sample.frame_current
            - obj_sample.streaming_sequence.frame_start ∧
          (0 : Int) ≤ 2 ∧ (2 : Int) < obj_sample.streaming_sequence.anim_length) :=
  ⟨rfl, (C1_streaming_sequence_update_condition sample_env scene_sample obj_sample 2
    rfl).2.1⟩

/-- C2: when `create_sequence_is_running` is true, an invocation of the
frame-change handler performs no sequence update: the scene — in particular
every object's mesh and settings — is left unchanged. -/
theorem C2_no_update_while_create_sequence_runs (env : PvEnv) (scene : TBBScene)
    (h : scene.create_sequence_is_running = true) :
    update_openfoam_streaming_sequences env scene = scene ∧
      (update_openfoam_streaming_sequences env scene).objects = scene.objects := by
  have hres : update_openfoam_streaming_sequences env scene = scene := by
    rw [update_openfoam_streaming_sequences, h]
    simp
  exact ⟨hres, by rw [hres]⟩

theorem C2_no_update_while_create_sequence_runs_witness :
    (scene_sample_running.create_sequence_is_running = true) ∧
      update_openfoam_streaming_sequences sample_env scene_sample_running
        = scene_sample_running :=
  ⟨rfl, (C2_no_update_while_create_sequence_runs sample_env scene_sample_running rfl).1⟩

/-- C6: `load_openfoam_file` returns `(False, None)` exactly when the path does
not exist and `(True, a reader)` otherwise; the streaming-sequence mesh update
raises `OSError` when the sequence's file path does not exist and `ValueError`
when the requested time point is at least the reader's number of time points;
and in both error cases the object (in particular its mesh) is left unchanged,
the error being raised before the geometry is touched. -/
theorem C6_load_errors_leave_mesh_unchanged (env : PvEnv) :
    (∀ fp ct dp, env.exists_file fp = false →
        load_openfoam_file env fp ct dp = (false, none)) ∧
      (∀ fp ct dp, env.exists_file fp = true →
        ∃ r, load_openfoam_file env fp ct dp = (true, some r)) ∧
      (∀ obj s tp, env.exists_file s.file_path = false →
        update_openfoam_streaming_sequence_mesh env obj s tp
          = Except.error PyErr.osError) ∧
      (∀ obj s tp r,
        (load_openfoam_file env s.file_path s.case_type s.decompose_polyhedra).2
            = some r →
        (r.number_time_points : Int) ≤ tp →
        update_openfoam_streaming_sequence_mesh env obj s tp
          = Except.error PyErr.valueError) ∧
      (∀ frame obj t e, streaming_sequence_attempt frame obj = some t →
        update_openfoam_streaming_sequence_mesh env obj obj.streaming_sequence t
          = Except.error e →
        process_streaming_sequence_object env frame obj = obj) := by
  refine ⟨?_, ?_, ?_, ?_, ?_⟩
  · intro fp ct dp hfp
    simp [load_openfoam_file, hfp]
  · intro fp ct dp hfp
    refine ⟨{ env.reader_of fp with case_type := ct, decompose_polyhedra := dp }, ?_⟩
    simp [load_openfoam_file, hfp]
  · intro obj s tp hfp
    have hl : load_openfoam_file env s.file_path s.case_type s.decompose_polyhedra
        = (false, none) := by
      simp [load_openfoam_file, hfp]
    rw [update_openfoam_streaming_sequence_mesh, hl]
  · intro obj s tp r hsome htp
    by_cases hfp : env.exists_file s.file_path = true
    · have hl : load_openfoam_file env s.file_path s.case_type s.decompose_polyhedra
          = (true, some { env.reader_of s.file_path with
              case_type := s.case_type, decompose_polyhedra := s.decompose_polyhedra }) := by
        simp [load_openfoam_file, hfp]
      have hr : ({ env.reader_of s.file_path with
          case_type := s.case_type,
          decompose_polyhedra := s.decompose_polyhedra } : OpenFOAMReader) = r := by
        rw [hl] at hsome
        exact Option.some.inj hsome
      have hge : tp ≥ ((({ env.reader_of s.file_path with
          case_type := s.case_type,
          decompose_polyhedra := s.decompose_polyhedra } : OpenFOAMReader).number_time_points
            : Int)) := by
        rw [hr]
        exact htp
      rw [update_openfoam_streaming_sequence_mesh, hl]
      exact if_pos hge
    · have hfp' : env.exists_file s.file_path = false := by
        cases hx : env.exists_file s.file_path with
        | false => rfl
        | true => exact absurd hx hfp
      have hl : load_openfoam_file env s.file_path s.case_type s.decompose_polyhedra
          = (false, none) := by
        simp [load_openfoam_file, hfp']
      rw [hl] at hsome
      exact Option.noConfusion hsome
  · intro frame obj t e hat herr
    have hstep : process_streaming_sequence_object env frame obj
        = match update_openfoam_streaming_sequence_mesh env obj obj.streaming_sequence t with
          | Except.ok obj2 => obj2
          | Except.error _ => obj := by
      rw [process_streaming_sequence_object, hat]
    rw [hstep, herr]

theorem C6_load_errors_leave_mesh_unchanged_witness :
    (sample_env_missing.exists_file "case.foam" = false) ∧
      load_openfoam_file sample_env_missing "case.foam" "reconstructed" false
        = (false, none) ∧
      update_openfoam_streaming_sequence_mesh sample_env_missing obj_sample
          seq_settings_sample 0
        = Except.error PyErr.osError ∧
      (sample_env.exists_file "case.foam" = true) ∧
      ((load_openfoam_file sample_env "case.foam" "reconstructed" false).2
        = some { sample_reader with
            case_type := "reconstructed", decompose_polyhedra := false }) ∧
      update_openfoam_streaming_sequence_mesh sample_env obj_sample
          seq_settings_sample 5
        = Except.error PyErr.valueError ∧
      (streaming_sequence_attempt 5 obj_sample = some 2) ∧
      process_streaming_sequence_object sample_env_missing 5 obj_sample = obj_sample := by
  refine ⟨rfl, ?_, ?_, rfl, rfl, ?_, by decide, ?_⟩
  · exact (C6_load_errors_leave_mesh_unchanged sample_env_missing).1
      "case.foam" "reconstructed" false rfl
  · exact (C6_load_errors_leave_mesh_unchanged sample_env_missing).2.2.1
      obj_sample seq_settings_sample 0 rfl
  · exact (C6_load_errors_leave_mesh_unchanged sample_env).2.2.2.1
      obj_sample seq_settings_sample 5
      { sample_reader with case_type := "reconstructed", decompose_polyhedra := false }
      rfl (by decide)
  · exact (C6_load_errors_leave_mesh_unchanged sample_env_missing).2.2.2.2
      5 obj_sample 2 PyErr.osError (by decide)
      ((C6_load_errors_leave_mesh_unchanged sample_env_missing).2.2.1
        obj_sample seq_settings_sample 2 rfl)
